import Mathlib

/-!
Shallow embedding of the `gpypi2.config` module (Config, ConfigManager,
Questionnaire) and of `gpypi.compat.get_python_compat`, together with
theorems checking the natural-language specification against the code.

Python dynamic values are modelled by `PyVal`; Python dicts over string keys
by association lists; exceptions by explicit error results.
-/

namespace GPyPi

/-- Python runtime values that appear in the configuration module:
`None`, booleans, strings and integers. -/
inductive PyVal
  | none
  | bool (b : Bool)
  | str (s : String)
  | int (n : Int)
  deriving DecidableEq, Repr

/-- Python dict with string keys, as an association list (keys unique in
all uses modelled here). -/
abbrev Dict (α : Type) := List (String × α)

/-- Python `d.get(k, None)` on a dict holding `PyVal`s. -/
def dictGet (d : Dict PyVal) (k : String) : PyVal :=
  ((d.lookup k).getD PyVal.none)

/-- Exceptions raised by the configuration module: `GPyPiConfigurationError`,
`GPyPiValidationError`, and Python `KeyError` (from a failed schema lookup). -/
inductive PyErr
  | configurationError (msg : String)
  | validationError (msg : String)
  | keyError (k : String)
  deriving DecidableEq, Repr

/-- The kind (Python type object) of a config option in the schema:
`bool` or `str`. -/
inductive OptKind
  | bool
  | str
  deriving DecidableEq, Repr

/-- One entry of the option schema: `(question text, kind, default value)`,
exactly as in `Config.allowed_options`. -/
abbrev OptSpec := String × OptKind × PyVal

/-- `Config.allowed_options`: the fixed option schema of `gpypi2.config`,
mapping option name to `(question, type, default)`. -/
def allowed_options : List (String × OptSpec) := [
  ("pn", ("Specify PN to use when naming ebuild", OptKind.str, PyVal.bool false)),
  ("pv", ("Specify PV to use when naming ebuild", OptKind.str, PyVal.bool false)),
  ("my_pv", ("Specify MY_PV used in ebuild", OptKind.str, PyVal.bool false)),
  ("my_pn", ("Specify MY_PN used in ebuild", OptKind.str, PyVal.bool false)),
  ("my_p", ("Specify MY_P used in ebuild", OptKind.str, PyVal.bool false)),
  ("uri", ("Specify SRC_URI of the package", OptKind.str, PyVal.str "")),
  ("index_url", ("Base URL for PyPi", OptKind.str, PyVal.str "http://pypi.python.org/pypi")),
  ("overlay", ("Specify overlay to use by name (stored in $OVERLAY/profiles/repo_name)", OptKind.str, PyVal.str "local")),
  ("overwrite", ("Overwrite existing ebuild", OptKind.bool, PyVal.bool false)),
  ("no_deps", ("Don't create ebuilds for any needed dependencies", OptKind.bool, PyVal.bool false)),
  ("category", ("Specify portage category to use when creating ebuild", OptKind.str, PyVal.str "dev-python")),
  ("format", ("Format when printing to stdout (use pygments identifier)", OptKind.str, PyVal.str "none")),
  ("package", ("Package name for ebuild actions", OptKind.str, PyVal.none)),
  ("version", ("Package version for ebuild actions", OptKind.str, PyVal.none)),
  ("command", ("Name of command that was invoked on CLI", OptKind.str, PyVal.none)),
  ("nocolors", ("Disable colorful output", OptKind.bool, PyVal.bool false)),
  ("background", ("Background of terminal when using formatting", OptKind.str, PyVal.str "dark"))]

/-- ASCII lowercasing of a string, modelling Python `str.lower()` on the
boolean tokens involved. -/
def pyLower (s : String) : String := String.mk (s.data.map Char.toLower)

/-- Modelled from the spec: `gpypi2.utils.asbool` is imported by
`gpypi2/config.py` but `gpypi2/utils.py` is not among the sources. Per the
spec, it accepts the case-insensitive truthy tokens y/yes/true/1 and falsy
tokens n/no/false/0, and raises `ValueError` (here `Except.error ()`) on any
other input; a non-string input is not a recognized token. -/
def asbool (value : PyVal) : Except Unit Bool :=
  match value with
  | PyVal.str s =>
    let v := pyLower s
    if v = "y" ∨ v = "yes" ∨ v = "true" ∨ v = "1" then Except.ok true
    else if v = "n" ∨ v = "no" ∨ v = "false" ∨ v = "0" then Except.ok false
    else Except.error ()
  | _ => Except.error ()

/-- Python `repr` of a `PyVal`, used only to build error message strings. -/
def pyRepr : PyVal → String
  | PyVal.none => "None"
  | PyVal.bool true => "True"
  | PyVal.bool false => "False"
  | PyVal.str s => "'" ++ s ++ "'"
  | PyVal.int n => toString n

/-- `Config.validate_bool`: converts via `asbool`, turning a `ValueError`
into `GPyPiValidationError`. -/
def validate_bool (value : PyVal) : Except PyErr PyVal :=
  match asbool value with
  | Except.ok b => Except.ok (PyVal.bool b)
  | Except.error _ =>
    Except.error (PyErr.validationError ("Not a boolean (write y/n): " ++ pyRepr value))

/-- `Config.validate_str`: accepts strings (unicode conversion is a no-op in
this model), raises `GPyPiValidationError` on anything else. -/
def validate_str (value : PyVal) : Except PyErr PyVal :=
  match value with
  | PyVal.str s => Except.ok (PyVal.str s)
  | v => Except.error (PyErr.validationError ("Not a string: " ++ pyRepr v))

/-- `Config.validate`: looks up the option kind in the schema (a missing name
is a Python `KeyError`) and dispatches to the matching subvalidator. -/
def validate (name : String) (value : PyVal) : Except PyErr PyVal :=
  match allowed_options.lookup name with
  | Option.none => Except.error (PyErr.keyError name)
  | Option.some (_, kind, _) =>
    match kind with
    | OptKind.bool => validate_bool value
    | OptKind.str => validate_str value

/-- `Config.from_argparse`: keeps exactly the namespace entries whose value
is not `None` (`filter(lambda i: i[1] is not None, options.__dict__.iteritems())`). -/
def from_argparse (options : Dict PyVal) : Dict PyVal :=
  options.filter (fun i => i.2 != PyVal.none)

/-- `Config.from_ini` applied to already-parsed ini items of the requested
section: validates every `(key, value)` pair through `Config.validate`;
a validation failure propagates. -/
def from_ini_items (items : List (String × String)) : Except PyErr (Dict PyVal) :=
  items.mapM (fun i => (validate i.1 (PyVal.str i.2)).map (fun v => (i.1, v)))

/-- State of a `ConfigManager`: the priority list `use`, the
`questionnaire_options` list, and the registry `configs` mapping source
name to a `Config` dict. -/
structure ConfigManager where
  use : List String
  questionnaire_options : List String
  configs : Dict (Dict PyVal)
  deriving DecidableEq, Repr

/-- `ConfigManager.__init__`: scans `use` in order and raises
`GPyPiConfigurationError` at the first member whose count in `use` is not 1;
otherwise returns the manager with an empty registry. -/
def ConfigManager.init (use : List String) (questionnaire_options : List String) :
    Except PyErr ConfigManager :=
  match use.find? (fun config => use.count config != 1) with
  | Option.some config =>
    Except.error (PyErr.configurationError
      ("ConfigManager could not be setup, config order has non-unique member: " ++ config))
  | Option.none =>
    Except.ok { use := use, questionnaire_options := questionnaire_options, configs := [] }

/-- Result of `ConfigManager.__getattr__`: a value, an uncaught exception, or
the invocation of `Questionnaire.ask` for the given option (the interactive
call is represented symbolically since it performs I/O). -/
inductive GetResult
  | value (v : PyVal)
  | ask (name : String)
  | error (e : PyErr)
  deriving DecidableEq, Repr

/-- The value line 207 computes for one source:
`self.configs.get(config_name, {}).get(name, None)`. -/
def ConfigManager.sourceValue (m : ConfigManager) (config_name name : String) : PyVal :=
  dictGet ((m.configs.lookup config_name).getD []) name

/-- The `for config_name in self.use` loop of `__getattr__`: returns the
first non-`None` value, `Option.none` when every source yields `None`. -/
def ConfigManager.resolveUse (m : ConfigManager) (name : String) :
    List String → Option PyVal
  | [] => Option.none
  | config_name :: rest =>
    let value := m.sourceValue config_name name
    if value ≠ PyVal.none then Option.some value else m.resolveUse name rest

/-- `ConfigManager.default_or_question`: ask the questionnaire when `name` is
in `questionnaire_options`, otherwise return the schema default
(`Config.allowed_options[name][2]`, a `KeyError` when absent). -/
def ConfigManager.default_or_question (m : ConfigManager) (name : String) : GetResult :=
  if name ∈ m.questionnaire_options then GetResult.ask name
  else
    match allowed_options.lookup name with
    | Option.some (_, _, d) => GetResult.value d
    | Option.none => GetResult.error (PyErr.keyError name)

/-- `ConfigManager.__getattr__`: fail when no config is registered, fail when
`name` is not in the schema, otherwise scan `use` for the first non-`None`
value and fall back to `default_or_question`. -/
def ConfigManager.getattr (m : ConfigManager) (name : String) : GetResult :=
  if m.configs.isEmpty then
    GetResult.error (PyErr.configurationError "At least one config file must be used.")
  else if (allowed_options.lookup name).isNone then
    GetResult.error (PyErr.configurationError
      ("No such option in Config.allowed_options: " ++ name))
  else
    match m.resolveUse name m.use with
    | Option.some value => GetResult.value value
    | Option.none => m.default_or_question name

/-- The answer `Questionnaire.ask` validates: `input_f(...) or option[2]`,
i.e. the schema default when the line read is empty, the line itself
otherwise. -/
def substituteAnswer (line : String) (default : PyVal) : PyVal :=
  if line = "" then default else PyVal.str line

/-- Result of `Questionnaire.ask` on a finite input stream: a validated
value, an uncaught exception, or exhaustion of the stream (where `raw_input`
would raise `EOFError`). -/
inductive AskResult
  | value (v : PyVal)
  | error (e : PyErr)
  | exhausted
  deriving DecidableEq, Repr

/-- `Questionnaire.ask` with the input function modelled as a finite list of
lines: reads a line, substitutes the schema default when it is empty,
validates; a `GPyPiValidationError` is logged and the question is asked
again on the remaining input, any other exception propagates. Prompt
formatting (`colorize`, `nocolors`) and the one-time help message only
affect display and are not modelled. -/
def ask (name : String) : List String → AskResult
  | [] => AskResult.exhausted
  | line :: rest =>
    match allowed_options.lookup name with
    | Option.none => AskResult.error (PyErr.keyError name)
    | Option.some (_, _, d) =>
      match validate name (substituteAnswer line d) with
      | Except.ok v => AskResult.value v
      | Except.error (PyErr.validationError _) => ask name rest
      | Except.error e => AskResult.error e

/-- Parsed content of an ini file: sections, each a list of key/value
string pairs, abstracting `SafeConfigParser`. -/
structure IniFile where
  sections : List (String × List (String × String))
  deriving DecidableEq, Repr

/-- Filesystem restricted to ini files: a map from path to parsed content. -/
abbrev FileSystem := List (String × IniFile)

/-- Python `str.split()` with no argument: split on runs of whitespace,
dropping empty pieces. -/
def splitWsAux : List Char → List Char → List (List Char)
  | [], acc => if acc = [] then [] else [acc.reverse]
  | c :: cs, acc =>
    if c.isWhitespace then
      (if acc = [] then splitWsAux cs [] else acc.reverse :: splitWsAux cs [])
    else splitWsAux cs (c :: acc)

/-- Python `s.split()` on a `String`. -/
def pySplitWhitespace (s : String) : List String :=
  (splitWsAux s.data []).map (fun l => String.mk l)

/-- `Config.from_ini(path)` given the parsed content of the file at `path`:
reads the section (default `config`; a missing section raises) and validates
every pair through `Config.validate`. -/
def from_ini (content : IniFile) (sect : String) : Except PyErr (Dict PyVal) :=
  match content.sections.lookup sect with
  | Option.none => Except.error (PyErr.keyError sect)
  | Option.some items => from_ini_items items

/-- The parsing phase of `ConfigManager.load_from_ini`, once the file at the
target path is known to exist with content `content`: read `use` and
`questionnaire_options` (whitespace-separated, defaulting to the empty
string) from section `sect`, construct the manager, and register an
`ini`-sourced `Config` parsed from the same file. -/
def parse_manager (content : IniFile) (sect : String) : Except PyErr ConfigManager :=
  match content.sections.lookup sect with
  | Option.none => Except.error (PyErr.keyError sect)
  | Option.some items =>
    let config_mgr := items
    let use := pySplitWhitespace ((config_mgr.lookup "use").getD "")
    let q_options := pySplitWhitespace ((config_mgr.lookup "questionnaire_options").getD "")
    match ConfigManager.init use q_options with
    | Except.error e => Except.error e
    | Except.ok mgr =>
      match from_ini content "config" with
      | Except.error e => Except.error e
      | Except.ok ini => Except.ok { mgr with configs := [("ini", ini)] }

/-- Outcome of `ConfigManager.load_from_ini`: the filesystem after the call,
whether the template was copied to the target path (with the generation
log message), and the parsing result. -/
structure LoadResult where
  fs : FileSystem
  copied : Bool
  result : Except PyErr ConfigManager
  deriving Repr

/-- `ConfigManager.load_from_ini` over the abstract filesystem: when no file
exists at `path`, the packaged template (`INI_TEMPLATE_PATH`, a parameter
here since the template file is packaged data) is copied there first; then
the file at `path` is parsed. -/
def load_from_ini (template : IniFile) (fs0 : FileSystem) (path sect : String) : LoadResult :=
  let fileExists : Bool := (fs0.lookup path).isSome
  let fs : FileSystem := if fileExists then fs0 else (path, template) :: fs0
  let content : IniFile := (fs.lookup path).getD ⟨[]⟩
  { fs := fs, copied := !fileExists, result := parse_manager content sect }

/-- The classifier tag `"Programming Language :: Python :: "` from
`gpypi.compat`. -/
def pyClassifierTag : String := "Programming Language :: Python :: "

/-- One step of Python `s.replace(pat, "")`, with fuel bounded by the length
of `s` (each step consumes at least one character, so `s.length` fuel always
suffices). -/
def removeAllFuel (pat : List Char) : Nat → List Char → List Char
  | 0, s => s
  | _ + 1, [] => []
  | fuel + 1, c :: cs =>
    if pat.isPrefixOf (c :: cs) then removeAllFuel pat fuel (List.drop pat.length (c :: cs))
    else c :: removeAllFuel pat fuel cs

/-- Python `s.replace(pat, "")`: delete every (non-overlapping, leftmost)
occurrence of the non-empty pattern `pat` from `s`. -/
def pyRemoveAll (s pat : String) : String :=
  String.mk (removeAllFuel pat.data s.data.length s.data)

/-- Python `s.startswith(tag)`. -/
def pyStartsWith (s tag : String) : Bool := tag.data.isPrefixOf s.data

/-- The `if/elif` chain of `get_python_compat` mapping one stripped
classifier entry to the versions it contributes (entries matching no branch
contribute nothing). -/
def entryVersions (entry : String) : List String :=
  if entry = "2" then ["2_7"]
  else if entry = "3" then ["3_3", "3_4", "3_5"]
  else if entry = "2.6" then ["2_7"]
  else if entry = "2.7" then ["2_7"]
  else if entry = "3.2" then ["3_3"]
  else if entry = "3.3" then ["3_3"]
  else if entry = "3.4" then ["3_4"]
  else if entry = "3.5" then ["3_5"]
  else []

/-- The classifier loop of `get_python_compat`: accumulate `py_versions`
over the classifiers that start with the tag, stripping the tag via
`replace`. -/
def rawPyVersions (classifiers : List String) : List String :=
  classifiers.foldl
    (fun acc s =>
      if pyStartsWith s pyClassifierTag then acc ++ entryVersions (pyRemoveAll s pyClassifierTag)
      else acc)
    []

/-- The `if not py_versions` fallback: substitute the full default list when
no classifier contributed a version. -/
def effectiveVersions (classifiers : List String) : List String :=
  let py_versions := rawPyVersions classifiers
  if py_versions = [] then ["2_7", "3_3", "3_4", "3_5"] else py_versions

/-- The formatting tail of `get_python_compat`: parenthesised single version,
or brace-grouped comma-separated list built by the `for ver in
py_versions[1:]` loop. The empty case is unreachable from
`effectiveVersions` (Python would raise `IndexError` there). -/
def python_compat_string (py_versions : List String) : String :=
  match py_versions with
  | [] => ""
  | v :: rest =>
    if rest = [] then "( python" ++ v ++ " )"
    else "( python\x7b" ++ rest.foldl (fun acc ver => acc ++ "," ++ ver) v ++ "\x7d )"

set_option linter.unusedVariables false in
/-- `gpypi.compat.get_python_compat`: queries the index client with the
hard-coded literals `"ipgetter"` and `"0.6"` (not with its parameters),
then maps the returned classifiers to a python_compat expression. The index
client `pypi.release_data` is a parameter returning the classifier list. -/
def get_python_compat (release_data : String → String → List String)
    (package_name version : String) : String :=
  python_compat_string (effectiveVersions (release_data "ipgetter" "0.6"))

/-! Theorems -/

/-- C5: for every token in y/yes/true/1 in any letter case `validate_bool`
returns true; for every token in n/no/false/0 in any letter case it returns
false; every other token raises `GPyPiValidationError`. -/
theorem C5_validate_bool_tokens (s : String) :
    (pyLower s ∈ ["y", "yes", "true", "1"] →
      validate_bool (PyVal.str s) = Except.ok (PyVal.bool true)) ∧
    (pyLower s ∈ ["n", "no", "false", "0"] →
      validate_bool (PyVal.str s) = Except.ok (PyVal.bool false)) ∧
    (pyLower s ∉ ["y", "yes", "true", "1"] → pyLower s ∉ ["n", "no", "false", "0"] →
      ∃ msg, validate_bool (PyVal.str s) = Except.error (PyErr.validationError msg)) := by
  refine ⟨fun h => ?_, fun h => ?_, fun h1 h2 => ?_⟩
  · have hv : pyLower s = "y" ∨ pyLower s = "yes" ∨ pyLower s = "true" ∨ pyLower s = "1" := by
      simpa using h
    simp only [validate_bool, asbool, if_pos hv]
  · have hv : pyLower s = "n" ∨ pyLower s = "no" ∨ pyLower s = "false" ∨ pyLower s = "0" := by
      simpa using h
    have hneg : ¬(pyLower s = "y" ∨ pyLower s = "yes" ∨ pyLower s = "true" ∨ pyLower s = "1") := by
      rcases hv with h | h | h | h <;> rw [h] <;> decide
    simp only [validate_bool, asbool, if_neg hneg, if_pos hv]
  · have hn1 : ¬(pyLower s = "y" ∨ pyLower s = "yes" ∨ pyLower s = "true" ∨ pyLower s = "1") := by
      simpa using h1
    have hn2 : ¬(pyLower s = "n" ∨ pyLower s = "no" ∨ pyLower s = "false" ∨ pyLower s = "0") := by
      simpa using h2
    exact ⟨"Not a boolean (write y/n): " ++ pyRepr (PyVal.str s),
      by simp only [validate_bool, asbool, if_neg hn1, if_neg hn2]⟩

/-- C5 witness: concrete evaluations in each of the three branches. -/
theorem C5_validate_bool_tokens_witness :
    validate_bool (PyVal.str "YES") = Except.ok (PyVal.bool true) ∧
    validate_bool (PyVal.str "No") = Except.ok (PyVal.bool false) ∧
    ∃ msg, validate_bool (PyVal.str "maybe") = Except.error (PyErr.validationError msg) :=
  ⟨(C5_validate_bool_tokens "YES").1 (by decide),
   (C5_validate_bool_tokens "No").2.1 (by decide),
   (C5_validate_bool_tokens "maybe").2.2 (by decide) (by decide)⟩

/-- C6: the Config built by `from_argparse` contains exactly the namespace
entries whose value is not the `None` sentinel. -/
theorem C6_from_argparse_drops_none (options : Dict PyVal) (name : String) (v : PyVal) :
    (name, v) ∈ from_argparse options ↔ ((name, v) ∈ options ∧ v ≠ PyVal.none) := by
  simp [from_argparse, List.mem_filter, bne_iff_ne]

/-- C3: constructing a `ConfigManager` whose `use` list has a duplicate
raises `GPyPiConfigurationError`; a duplicate-free `use` list succeeds. -/
theorem C3_init_unique_use (use q_options : List String) :
    (¬ use.Nodup → ∃ msg,
      ConfigManager.init use q_options = Except.error (PyErr.configurationError msg)) ∧
    (use.Nodup → ∃ m, ConfigManager.init use q_options = Except.ok m) := by
  constructor
  · intro hnd
    have hex : (use.find? (fun config => use.count config != 1)).isSome := by
      rw [List.find?_isSome]
      rw [List.nodup_iff_count_le_one] at hnd
      push_neg at hnd
      obtain ⟨c, hc⟩ := hnd
      have hmem : c ∈ use := List.count_pos_iff.mp (by omega)
      refine ⟨c, hmem, ?_⟩
      show (use.count c != 1) = true
      rw [bne_iff_ne]
      omega
    obtain ⟨c, hfound⟩ := Option.isSome_iff_exists.mp hex
    exact ⟨"ConfigManager could not be setup, config order has non-unique member: " ++ c,
      by simp only [ConfigManager.init, hfound]⟩
  · intro hnd
    have hfound : use.find? (fun config => use.count config != 1) = Option.none := by
      rw [List.find?_eq_none]
      intro c hc
      simp only [bne_iff_ne, ne_eq, decide_not, Bool.not_eq_true, decide_eq_false_iff_not,
        Decidable.not_not]
      exact List.count_eq_one_of_mem hnd hc
    exact ⟨ConfigManager.mk use q_options [], by simp only [ConfigManager.init, hfound]⟩

/-- C3 witness: `use=['a','a']` raises, `use=['a','b']` succeeds. -/
theorem C3_init_unique_use_witness :
    (∃ msg, ConfigManager.init ["a", "a"] [] = Except.error (PyErr.configurationError msg)) ∧
    (∃ m, ConfigManager.init ["a", "b"] [] = Except.ok m) :=
  ⟨(C3_init_unique_use ["a", "a"] []).1 (by decide),
   (C3_init_unique_use ["a", "b"] []).2 (by decide)⟩

/-- C4: attribute lookup of a name outside the option schema raises
`GPyPiConfigurationError`, whatever Configs are registered (with an empty
registry the no-config `GPyPiConfigurationError` fires first). -/
theorem C4_unknown_option_error (m : ConfigManager) (name : String)
    (h : allowed_options.lookup name = Option.none) :
    ∃ msg, m.getattr name = GetResult.error (PyErr.configurationError msg) := by
  unfold ConfigManager.getattr
  by_cases hc : m.configs.isEmpty
  · exact ⟨"At least one config file must be used.", by simp [hc]⟩
  · exact ⟨"No such option in Config.allowed_options: " ++ name, by simp [hc, h]⟩

/-- C4 witness: looking up `x` (not in the schema) with a config registered. -/
theorem C4_unknown_option_error_witness :
    ∃ msg, (ConfigManager.mk ["a"] [] [("a", [("x", PyVal.int 1)])]).getattr "x" =
      GetResult.error (PyErr.configurationError msg) :=
  C4_unknown_option_error (ConfigManager.mk ["a"] [] [("a", [("x", PyVal.int 1)])]) "x" (by decide)

/-- Helper: the `use` scan yields nothing when every listed source gives
`None` for `name`. -/
theorem resolveUse_eq_none (m : ConfigManager) (name : String) (l : List String)
    (h : ∀ c ∈ l, m.sourceValue c name = PyVal.none) :
    m.resolveUse name l = Option.none := by
  induction l with
  | nil => rfl
  | cons c rest ih =>
    have hc := h c (by simp)
    rw [ConfigManager.resolveUse]
    simp only [hc, ne_eq, not_true_eq_false, if_false]
    exact ih (fun x hx => h x (List.mem_cons_of_mem c hx))

/-- Helper: the `use` scan returns the value of the first source yielding a
non-`None` value, ignoring everything after it. -/
theorem resolveUse_first_hit (m : ConfigManager) (name : String) (pre : List String)
    (cn : String) (post : List String)
    (hpre : ∀ c ∈ pre, m.sourceValue c name = PyVal.none)
    (hcn : m.sourceValue cn name ≠ PyVal.none) :
    m.resolveUse name (pre ++ cn :: post) = Option.some (m.sourceValue cn name) := by
  induction pre with
  | nil =>
    rw [List.nil_append, ConfigManager.resolveUse]
    simp only [hcn, ne_eq, not_false_eq_true, if_true]
  | cons c rest ih =>
    have hc := hpre c (by simp)
    rw [List.cons_append, ConfigManager.resolveUse]
    simp only [hc, ne_eq, not_true_eq_false, if_false]
    exact ih (fun x hx => hpre x (List.mem_cons_of_mem c hx))

/-- C2: a schema option that no registered source values (all scans give
`None`) and that is not in `questionnaire_options` resolves to exactly the
schema default, without the Questionnaire being invoked. The manager must
have at least one registered config, else `__getattr__` raises before
reaching the resolution loop. -/
theorem C2_schema_default (m : ConfigManager) (name question : String) (kind : OptKind)
    (d : PyVal)
    (hne : m.configs ≠ [])
    (hopt : allowed_options.lookup name = Option.some (question, kind, d))
    (hnov : ∀ c ∈ m.use, m.sourceValue c name = PyVal.none)
    (hq : name ∉ m.questionnaire_options) :
    m.getattr name = GetResult.value d := by
  have h1 : m.configs.isEmpty = false := by
    simpa [List.isEmpty_iff] using hne
  rw [ConfigManager.getattr]
  simp only [h1, Bool.false_eq_true, if_false, hopt, Option.isNone_some, Bool.false_eq_true,
    if_false, resolveUse_eq_none m name m.use hnov]
  simp only [ConfigManager.default_or_question, hq, if_false, hopt]

/-- C2 witness: the `overlay` option with one registered source that does
not mention it resolves to the schema default `"local"`. -/
theorem C2_schema_default_witness :
    (ConfigManager.mk ["a"] [] [("a", [])]).getattr "overlay" =
      GetResult.value (PyVal.str "local") :=
  C2_schema_default (ConfigManager.mk ["a"] [] [("a", [])]) "overlay"
    "Specify overlay to use by name (stored in $OVERLAY/profiles/repo_name)"
    OptKind.str (PyVal.str "local") (by decide) (by decide) (by decide) (by decide)

/-- The manager of claim C1, exactly as the claim describes it: `use` is
`['a','b']`, source `a` holds `{x: 1}` and source `b` holds `{x: 2}`. -/
def claim1_manager : ConfigManager :=
  ConfigManager.mk ["a", "b"] [] [("a", [("x", PyVal.int 1)]), ("b", [("x", PyVal.int 2)])]

/-- C1 counterexample: on the claim's own instance, attribute lookup of `x`
does not return 1 — `x` is not in `Config.allowed_options`, so `__getattr__`
raises `GPyPiConfigurationError` before scanning the sources. -/
theorem C1_counterexample :
    claim1_manager.getattr "x" ≠ GetResult.value (PyVal.int 1) ∧
    claim1_manager.getattr "x" =
      GetResult.error (PyErr.configurationError "No such option in Config.allowed_options: x") := by
  decide

/-- C1 amended: for a schema option name, lookup iterates `use` in order,
skips source names with no registered Config (their scan yields `None`) and
returns the first non-`None` value found, ignoring later sources
(short-circuit priority resolution); the claim's option `x` must be replaced
by a schema option such as `overlay`, since lookup of a non-schema name
raises `GPyPiConfigurationError`. -/
theorem C1_amended_first_non_none (m : ConfigManager) (name : String)
    (pre : List String) (cn : String) (post : List String)
    (hne : m.configs ≠ [])
    (hopt : (allowed_options.lookup name).isSome)
    (huse : m.use = pre ++ cn :: post)
    (hpre : ∀ c ∈ pre, m.sourceValue c name = PyVal.none)
    (hcn : m.sourceValue cn name ≠ PyVal.none) :
    m.getattr name = GetResult.value (m.sourceValue cn name) := by
  have h1 : m.configs.isEmpty = false := by
    simpa [List.isEmpty_iff] using hne
  obtain ⟨entry, hsome⟩ := Option.isSome_iff_exists.mp hopt
  rw [ConfigManager.getattr]
  simp only [h1, Bool.false_eq_true, if_false, hsome, Option.isNone_some]
  rw [huse, resolveUse_first_hit m name pre cn post hpre hcn]

/-- C1 amended witness: the claim's instance with the schema option
`overlay` in place of `x`: source `a` yields `"1"`, source `b` yields `"2"`,
and lookup of `overlay` returns `"1"`. -/
theorem C1_amended_first_non_none_witness :
    (ConfigManager.mk ["a", "b"] []
      [("a", [("overlay", PyVal.str "1")]), ("b", [("overlay", PyVal.str "2")])]).getattr
        "overlay" = GetResult.value (PyVal.str "1") :=
  C1_amended_first_non_none
    (ConfigManager.mk ["a", "b"] []
      [("a", [("overlay", PyVal.str "1")]), ("b", [("overlay", PyVal.str "2")])])
    "overlay" [] "a" ["b"] (by decide) (by decide) rfl (by decide) (by decide)

/-- C7: `Questionnaire.ask` substitutes the schema default for an empty
input line, runs the (possibly substituted) answer through `Config.validate`,
and on a validation failure logs the error and asks again on the remaining
input — so `ask` returns the validated value of the first answer that
validates successfully: if every answer before position `i` fails validation
and the answer at `i` validates to `v`, `ask` returns `v`. -/
theorem C7_ask_first_valid (name question : String) (kind : OptKind) (d : PyVal)
    (inputs : List String) (i : Nat) (v : PyVal)
    (hopt : allowed_options.lookup name = Option.some (question, kind, d))
    (hi : i < inputs.length)
    (hfail : ∀ j, j < i → ∃ msg,
      validate name (substituteAnswer (inputs.getD j "") d) =
        Except.error (PyErr.validationError msg))
    (hok : validate name (substituteAnswer (inputs.getD i "") d) = Except.ok v) :
    ask name inputs = AskResult.value v := by
  induction inputs generalizing i with
  | nil => simp at hi
  | cons line rest ih =>
    rw [ask, hopt]
    dsimp only
    cases i with
    | zero =>
      rw [List.getD_cons_zero] at hok
      rw [hok]
    | succ i =>
      obtain ⟨msg, h0⟩ := hfail 0 (Nat.succ_pos i)
      rw [List.getD_cons_zero] at h0
      rw [h0]
      exact ih i (Nat.lt_of_succ_lt_succ hi)
        (fun j hj => by
          have := hfail (j + 1) (Nat.succ_lt_succ hj)
          rwa [List.getD_cons_succ] at this)
        (by rwa [List.getD_cons_succ] at hok)

/-- C7 witness: for the bool option `overwrite`, the invalid answer
`"maybe"` is retried and `"y"` validates to true; for the str option
`category`, an empty line substitutes the default `"dev-python"`. -/
theorem C7_ask_first_valid_witness :
    ask "overwrite" ["maybe", "y"] = AskResult.value (PyVal.bool true) ∧
    ask "category" [""] = AskResult.value (PyVal.str "dev-python") :=
  ⟨C7_ask_first_valid "overwrite" "Overwrite existing ebuild" OptKind.bool (PyVal.bool false)
      ["maybe", "y"] 1 (PyVal.bool true) (by decide) (by decide)
      (fun j hj => by
        cases j with
        | zero => exact ⟨"Not a boolean (write y/n): 'maybe'", rfl⟩
        | succ n => omega)
      rfl,
   C7_ask_first_valid "category" "Specify portage category to use when creating ebuild"
      OptKind.str (PyVal.str "dev-python") [""] 0 (PyVal.str "dev-python")
      (by decide) (by decide) (fun j hj => by omega) rfl⟩

/-- C8: `load_from_ini` on a path with no file copies the packaged template
there first (logging that a config was generated) and then parses the copied
template instead of raising; on a path with an existing file it performs no
copy and parses the existing content. -/
theorem C8_load_from_ini_bootstrap (template : IniFile) (fs : FileSystem) (path sect : String) :
    (fs.lookup path = Option.none →
      (load_from_ini template fs path sect).copied = true ∧
      (load_from_ini template fs path sect).fs.lookup path = Option.some template ∧
      (load_from_ini template fs path sect).result = parse_manager template sect) ∧
    (∀ c, fs.lookup path = Option.some c →
      (load_from_ini template fs path sect).copied = false ∧
      (load_from_ini template fs path sect).fs = fs ∧
      (load_from_ini template fs path sect).result = parse_manager c sect) := by
  constructor
  · intro h
    simp [load_from_ini, h, List.lookup]
  · intro c h
    simp [load_from_ini, h]

/-- C8 witness: on the empty filesystem the template is copied and parsed;
when the file already exists with content `c`, nothing is copied and `c` is
parsed. -/
theorem C8_load_from_ini_bootstrap_witness :
    ((load_from_ini (IniFile.mk []) [] "gpypi2.ini" "config_manager").copied = true ∧
      (load_from_ini (IniFile.mk []) [] "gpypi2.ini" "config_manager").fs.lookup "gpypi2.ini" =
        Option.some (IniFile.mk []) ∧
      (load_from_ini (IniFile.mk []) [] "gpypi2.ini" "config_manager").result =
        parse_manager (IniFile.mk []) "config_manager") ∧
    ((load_from_ini (IniFile.mk []) [("gpypi2.ini", IniFile.mk [("config", [])])]
        "gpypi2.ini" "config_manager").copied = false ∧
      (load_from_ini (IniFile.mk []) [("gpypi2.ini", IniFile.mk [("config", [])])]
        "gpypi2.ini" "config_manager").fs = [("gpypi2.ini", IniFile.mk [("config", [])])] ∧
      (load_from_ini (IniFile.mk []) [("gpypi2.ini", IniFile.mk [("config", [])])]
        "gpypi2.ini" "config_manager").result =
        parse_manager (IniFile.mk [("config", [])]) "config_manager") :=
  ⟨(C8_load_from_ini_bootstrap (IniFile.mk []) [] "gpypi2.ini" "config_manager").1 rfl,
   (C8_load_from_ini_bootstrap (IniFile.mk []) [("gpypi2.ini", IniFile.mk [("config", [])])]
      "gpypi2.ini" "config_manager").2 (IniFile.mk [("config", [])]) rfl⟩

/-- C9: `get_python_compat` ignores its `package_name` and `version`
parameters — the index is always queried with the literals `"ipgetter"` and
`"0.6"`, so two calls with the same index client and any two argument pairs
return the same string. -/
theorem C9_params_ignored (release_data : String → String → List String)
    (package_name version package_name2 version2 : String) :
    get_python_compat release_data package_name version =
      get_python_compat release_data package_name2 version2 := rfl

/-- Comma-separated join of a version list, the `V1,V2,...` shape the spec
describes for the brace group. -/
def joinComma : List String → String
  | [] => ""
  | [v] => v
  | v :: rest :: more => v ++ "," ++ joinComma (rest :: more)

/-- Helper: the comma fold distributes over a prepended accumulator. -/
theorem foldl_comma_shift (ws : List String) (a b : String) :
    ws.foldl (fun acc ver => acc ++ "," ++ ver) (a ++ b) =
      a ++ ws.foldl (fun acc ver => acc ++ "," ++ ver) b := by
  induction ws generalizing b with
  | nil => rfl
  | cons w ws ih =>
    simp only [List.foldl_cons]
    rw [String.append_assoc a b ",", String.append_assoc a (b ++ ",") w]
    exact ih ((b ++ ",") ++ w)

/-- Helper: the `for ver in py_versions[1:]` accumulation builds exactly the
comma-separated join of the whole list. -/
theorem foldl_comma_eq_joinComma (v : String) (rest : List String) :
    rest.foldl (fun acc ver => acc ++ "," ++ ver) v = joinComma (v :: rest) := by
  induction rest generalizing v with
  | nil => rfl
  | cons w ws ih =>
    simp only [List.foldl_cons]
    rw [foldl_comma_shift ws (v ++ ",") w, ih w]
    rfl

/-- C10: the version list used by `get_python_compat` is never empty (the
full default list is substituted when no classifier maps to a known
version), so the returned string is `( pythonV )` for a single version and
`( python{V1,V2,...} )` for several; versions are not deduplicated, so the
classifiers `2` and `2.7` both contribute the token `2_7` and the braces
hold it twice. -/
theorem C10_compat_shape (release_data : String → String → List String)
    (package_name version : String) :
    effectiveVersions (release_data "ipgetter" "0.6") ≠ [] ∧
    (∀ v, effectiveVersions (release_data "ipgetter" "0.6") = [v] →
      get_python_compat release_data package_name version = "( python" ++ v ++ " )") ∧
    (∀ v rest, effectiveVersions (release_data "ipgetter" "0.6") = v :: rest → rest ≠ [] →
      get_python_compat release_data package_name version =
        "( python\x7b" ++ joinComma (v :: rest) ++ "\x7d )") ∧
    python_compat_string (effectiveVersions
      ["Programming Language :: Python :: 2", "Programming Language :: Python :: 2.7"]) =
      "( python\x7b2_7,2_7\x7d )" := by
  refine ⟨?_, fun v hv => ?_, fun v rest hv hrest => ?_, by decide⟩
  · unfold effectiveVersions
    by_cases h : rawPyVersions (release_data "ipgetter" "0.6") = [] <;> simp [h]
  · unfold get_python_compat
    rw [hv]
    rfl
  · unfold get_python_compat
    rw [hv, python_compat_string]
    simp only [hrest, if_false]
    rw [foldl_comma_eq_joinComma v rest, String.append_assoc]

/-- C10 witness: one classifier gives the single-version form; the duplicate
pair `2` and `2.7` gives the brace form with the repeated token. -/
theorem C10_compat_shape_witness :
    get_python_compat (fun _ _ => ["Programming Language :: Python :: 3.4"]) "p" "1" =
      "( python3_4 )" ∧
    get_python_compat (fun _ _ => ["Programming Language :: Python :: 2",
      "Programming Language :: Python :: 2.7"]) "p" "1" = "( python\x7b2_7,2_7\x7d )" :=
  ⟨(C10_compat_shape (fun _ _ => ["Programming Language :: Python :: 3.4"]) "p" "1").2.1
      "3_4" (by decide),
   ((C10_compat_shape (fun _ _ => ["Programming Language :: Python :: 2",
        "Programming Language :: Python :: 2.7"]) "p" "1").2.2.1
      "2_7" ["2_7"] (by decide) (by decide)).trans (by decide)⟩

end GPyPi
